import Mathlib

/-!
Verification of the IR question-answering pipeline (`src/lib/rag-service.ts`,
`src/lib/vertex-ai.ts`).

The TypeScript source is embedded shallowly:

* JavaScript strings are modelled as Lean `String` (lists of characters; the
  payloads of interest are BMP text, where UTF-16 length, code-point length
  and Lean `String.length` agree).
* The string helpers of the source (`toLowerCase`, `trim`, `split(/\s+/)`,
  `includes`, `match(...).length`, `replace`) are implemented below with
  JavaScript semantics (`jsToLower`, `jsTrim`, `jsSplitWs`, `jsIncludes`,
  `countOcc`, the `rx*` matcher family).
* The regular expressions used for scoring are interpreted by a small
  backtracking matcher (`RxM`): a matcher maps an input suffix to the list of
  possible remainders, ordered by the backtracking priority of a JavaScript
  engine (greedy quantifiers first), so the head of the list is the remainder
  of "the" match and counting non-overlapping matches reproduces
  `String.prototype.match` with the `g` flag.
* Floating point appears only as the constants 0, 0.5, 0.7, 0.8, 0.9, 1.0 and
  as exact divisions of small integer counts; all are exact in binary64, so
  numbers are modelled by `Rat`.
* The two external service calls (document search, text generation) are
  inputs of the embedded orchestrator: the search response is passed as data,
  and the raw outcome of the generation call is passed as an
  `Except String _` oracle (`Except.error` = the promise rejected).
-/

/-! ### JavaScript string primitives -/

/-- The character set of the JavaScript `\s` class (and of `String.trim`). -/
def jsIsSpace (c : Char) : Bool :=
  c = ' ' || c = '\t' || c = '\n' || c = '\r' || c.val = 0x0b || c.val = 0x0c ||
  c.val = 0xa0 || c.val = 0x1680 || (0x2000 ≤ c.val && c.val ≤ 0x200a) ||
  c.val = 0x2028 || c.val = 0x2029 || c.val = 0x202f || c.val = 0x205f ||
  c.val = 0x3000 || c.val = 0xfeff

/-- `String.prototype.toLowerCase` (ASCII range; the Japanese payload text is
case-invariant). -/
def jsToLower (s : String) : String := String.mk (s.data.map Char.toLower)

/-- `String.prototype.trim`. -/
def jsTrim (s : String) : String :=
  String.mk (((s.data.dropWhile jsIsSpace).reverse.dropWhile jsIsSpace).reverse)

mutual

/-- `split(/\s+/)` : accumulating a token (`acc` holds its reversed chars). -/
def splitWsTok : List Char → List Char → List String
  | [], acc => [String.mk acc.reverse]
  | c :: cs, acc =>
    if jsIsSpace c then String.mk acc.reverse :: splitWsSkip cs
    else splitWsTok cs (c :: acc)

/-- `split(/\s+/)` : inside a (non-initial) whitespace run. -/
def splitWsSkip : List Char → List String
  | [] => [""]
  | c :: cs => if jsIsSpace c then splitWsSkip cs else splitWsTok cs [c]

end

/-- `String.prototype.split(/\s+/)`: note that a leading (resp. trailing)
whitespace run yields a leading (resp. trailing) empty token, and that
splitting the empty string yields `[""]`. -/
def jsSplitWs (s : String) : List String := splitWsTok s.data []

/-- Substring occurrence test on character lists. -/
def isSubAux (pat : List Char) : List Char → Bool
  | [] => pat.isEmpty
  | c :: cs => pat.isPrefixOf (c :: cs) || isSubAux pat cs

/-- `String.prototype.includes` (substring test). -/
def jsIncludes (s pat : String) : Bool := isSubAux pat.data s.data

/-- Number of non-overlapping occurrences of a literal pattern, scanning left
to right (fuel-structured recursion: every step consumes at least one
character, so fuel equal to the list length is never exhausted). -/
def countOccFuel (pat : List Char) : Nat → List Char → Nat
  | 0, _ => 0
  | _, [] => 0
  | fuel + 1, c :: cs =>
    if pat.isPrefixOf (c :: cs) then
      1 + countOccFuel pat fuel (cs.drop (pat.length - 1))
    else countOccFuel pat fuel cs

/-- Occurrence count on character lists. -/
def countOccAux (pat : List Char) (l : List Char) : Nat := countOccFuel pat l.length l

/-- `s.match(new RegExp(pat, 'g')).length` for a literal `pat`. -/
def countOcc (pat s : String) : Nat := countOccAux pat.data s.data

/-- Fuel-structured global literal replacement (every step consumes at least
one character). -/
def replaceAllFuel (pat rep : List Char) : Nat → List Char → List Char
  | 0, l => l
  | _, [] => []
  | fuel + 1, c :: cs =>
    if pat.isPrefixOf (c :: cs) then
      rep ++ replaceAllFuel pat rep fuel (cs.drop (pat.length - 1))
    else c :: replaceAllFuel pat rep fuel cs

/-- Replace every occurrence of a literal pattern, scanning left to right
(`String.prototype.replace` with a `g`-flagged literal pattern). -/
def replaceAllAux (pat rep : List Char) (l : List Char) : List Char :=
  replaceAllFuel pat rep l.length l

/-- Fuel-structured tag stripper. -/
def removeTagsFuel : Nat → List Char → List Char
  | 0, l => l
  | _, [] => []
  | fuel + 1, c :: cs =>
    if c = '<' then
      match cs.dropWhile (fun d => !(d = '>')) with
      | [] => c :: removeTagsFuel fuel cs
      | _ :: rest => removeTagsFuel fuel rest
    else c :: removeTagsFuel fuel cs

/-- `replace(/<[^>]*>/g, '')`: an HTML tag runs from a `<` through the first
following `>`; a `<` with no later `>` matches nothing and is kept. -/
def removeTagsAux (l : List Char) : List Char := removeTagsFuel l.length l

/-- Fuel-structured whitespace-run collapse. -/
def collapseWsFuel : Nat → List Char → List Char
  | 0, l => l
  | _, [] => []
  | fuel + 1, c :: cs =>
    if jsIsSpace c then ' ' :: collapseWsFuel fuel (cs.dropWhile jsIsSpace)
    else c :: collapseWsFuel fuel cs

/-- `replace(/\s+/g, ' ')`. -/
def collapseWsAux (l : List Char) : List Char := collapseWsFuel l.length l

/-- The snippet/extractive-answer sanitizer of `rag-service.ts` (repeated
verbatim at four call sites of the source): strip HTML tags, decode
`&nbsp; &amp; &lt; &gt;`, collapse whitespace runs, trim. -/
def sanitizeText (s : String) : String :=
  jsTrim (String.mk (collapseWsAux
    (replaceAllAux "&gt;".data ">".data
      (replaceAllAux "&lt;".data "<".data
        (replaceAllAux "&amp;".data "&".data
          (replaceAllAux "&nbsp;".data " ".data
            (removeTagsAux s.data)))))))

/-- `Array.prototype.join(sep)`. -/
def joinSep (sep : String) : List String → String
  | [] => ""
  | [x] => x
  | x :: y :: rest => x ++ sep ++ joinSep sep (y :: rest)

/-! ### A small backtracking regex matcher

A matcher sends an input suffix to the list of possible remainders after a
match, ordered by JavaScript backtracking priority (greedy alternatives
first), so `List.head?` picks the remainder of the match the engine returns.
-/

/-- Matcher type: input suffix to prioritized list of remainders. -/
abbrev RxM := List Char → List (List Char)

/-- Match the empty pattern. -/
def rxEps : RxM := fun s => [s]

/-- Match one character satisfying a predicate (a character class). -/
def rxChar (p : Char → Bool) : RxM := fun s =>
  match s with
  | [] => []
  | c :: cs => if p c then [cs] else []

/-- Match a literal string. -/
def rxLit (lit : String) : RxM := fun s =>
  if lit.data.isPrefixOf s then [s.drop lit.data.length] else []

/-- Sequencing. -/
def rxSeq (a b : RxM) : RxM := fun s => (a s).flatMap b

/-- Greedy option (`?`). -/
def rxOpt (a : RxM) : RxM := fun s => a s ++ [s]

/-- Exactly `n` repetitions. -/
def rxCount (a : RxM) : Nat → RxM
  | 0 => rxEps
  | n + 1 => rxSeq a (rxCount a n)

/-- Greedy `{lo,hi}` repetition: try `hi` copies first, down to `lo`. -/
def rxRepRange (a : RxM) (lo hi : Nat) : RxM := fun s =>
  (((List.range (hi + 1)).reverse.filter (fun n => lo ≤ n)).flatMap
    (fun n => rxCount a n s))

/-- Greedy star, with fuel: each starred sub-pattern of the embedded regexes
consumes at least one character, so `length + 1` rounds are complete. -/
def rxStarFuel (a : RxM) : Nat → RxM
  | 0 => fun s => [s]
  | n + 1 => fun s => ((a s).flatMap (fun s2 => rxStarFuel a n s2)) ++ [s]

/-- Greedy `*`. -/
def rxStar (a : RxM) : RxM := fun s => rxStarFuel a (s.length + 1) s

/-- Greedy `+`. -/
def rxPlus (a : RxM) : RxM := rxSeq a (rxStar a)

/-- One of a list of characters (`[...]` class). -/
def rxAnyOf (cs : List Char) : RxM := rxChar (fun c => cs.contains c)

/-- The remainder of the match attempted at the current position. -/
def rxMatchEnd (a : RxM) (s : List Char) : Option (List Char) := (a s).head?

/-- Fuel-structured match counter: on a match, continue after the matched
region (a zero-width match advances one position, as a JavaScript engine
does); every embedded pattern consumes at least one character, so fuel equal
to the list length is never exhausted. -/
def rxCountMatchesFuel (a : RxM) : Nat → List Char → Nat
  | 0, _ => 0
  | _, [] => 0
  | fuel + 1, c :: cs =>
    match rxMatchEnd a (c :: cs) with
    | some rest => 1 + rxCountMatchesFuel a fuel (if rest.length ≤ cs.length then rest else cs)
    | none => rxCountMatchesFuel a fuel cs

/-- Count non-overlapping matches left to right (`match(re_g).length`). -/
def rxCountMatches (a : RxM) (l : List Char) : Nat := rxCountMatchesFuel a l.length l

/-- `match(re_g).length` on a `String`. -/
def rxCountStr (a : RxM) (s : String) : Nat := rxCountMatches a s.data

/-- `re.test(s)`: some position admits a match (no embedded pattern matches
the empty string, so positions at the very end never match). -/
def rxTestList (a : RxM) : List Char → Bool
  | [] => false
  | c :: cs => !(a (c :: cs)).isEmpty || rxTestList a cs

/-- `re.test` on a `String`. -/
def rxTest (a : RxM) (s : String) : Bool := rxTestList a s.data

/-! ### Character classes and numeric patterns of the scoring code -/

/-- `\d`. -/
def rxDigit : RxM := rxChar Char.isDigit

/-- `\s*`. -/
def rxWsStar : RxM := rxStar (rxChar jsIsSpace)

/-- `\d{1,3}(?:,\d{3})*(?:\.\d+)?` — the common number shape. -/
def rxNum : RxM :=
  rxSeq (rxRepRange rxDigit 1 3)
    (rxSeq (rxStar (rxSeq (rxChar (fun c => c = ',')) (rxCount rxDigit 3)))
      (rxOpt (rxSeq (rxChar (fun c => c = '.')) (rxPlus rxDigit))))

/-- `(?:\.\d+)?`'s mandatory part `\.\d+`. -/
def rxDecimal : RxM := rxSeq (rxChar (fun c => c = '.')) (rxPlus rxDigit)

/-- `[：:]?` — the optional separator of the metric patterns. -/
def rxSepOpt : RxM := rxOpt (rxAnyOf ['：', ':'])

/-- `<term>\s*[：:]?\s*NUM` — financial metric followed by a number. -/
def rxMetric (term : String) : RxM :=
  rxSeq (rxLit term) (rxSeq rxWsStar (rxSeq rxSepOpt (rxSeq rxWsStar rxNum)))

/-- `前年(?:同期)?比\s*\d+(?:\.\d+)?\s*<pct>`. -/
def rxYoY (pct : RxM) : RxM :=
  rxSeq (rxLit "前年") (rxSeq (rxOpt (rxLit "同期")) (rxSeq (rxLit "比")
    (rxSeq rxWsStar (rxSeq (rxPlus rxDigit) (rxSeq (rxOpt rxDecimal)
      (rxSeq rxWsStar pct))))))

/-- `<word>\s*\d+(?:\.\d+)?` — growth/decline word followed by a number. -/
def rxGrowth (word : String) : RxM :=
  rxSeq (rxLit word) (rxSeq rxWsStar (rxSeq (rxPlus rxDigit) (rxOpt rxDecimal)))

/-- `\d+(?:\.\d+)?\s*<pct>[増減]`. -/
def rxPctChange (pct : RxM) : RxM :=
  rxSeq (rxPlus rxDigit) (rxSeq (rxOpt rxDecimal)
    (rxSeq rxWsStar (rxSeq pct (rxAnyOf ['増', '減']))))

/-- The 23 `numberPatterns` regexes of `filterAndPrioritizeSnippets`, in
source order. -/
def numberPatterns : List RxM :=
  [ rxSeq rxNum (rxAnyOf ['百', '千', '万', '億', '円']),
    rxSeq rxNum (rxSeq rxWsStar (rxSeq (rxAnyOf ['百', '千', '万', '億']) (rxLit "円"))),
    rxSeq rxNum (rxSeq rxWsStar (rxLit "百万円")),
    rxSeq rxNum (rxSeq rxWsStar (rxLit "億円")),
    rxMetric "営業利益",
    rxMetric "売上高",
    rxMetric "当期純利益",
    rxMetric "経常利益",
    rxSeq rxNum (rxSeq rxWsStar (rxLit "％")),
    rxSeq rxNum (rxSeq rxWsStar (rxLit "%")),
    rxYoY (rxLit "％"),
    rxYoY (rxLit "%"),
    rxPctChange (rxLit "％"),
    rxPctChange (rxLit "%"),
    rxGrowth "増益",
    rxGrowth "減益",
    rxGrowth "増収",
    rxGrowth "減収",
    rxSeq (rxCount rxDigit 4) (rxSeq (rxLit "年") (rxSeq (rxRepRange rxDigit 1 2) (rxLit "月期"))),
    rxSeq (rxCount rxDigit 4) (rxSeq (rxLit "年") (rxSeq (rxRepRange rxDigit 1 2) (rxLit "月"))),
    rxSeq (rxPlus rxDigit) (rxSeq (rxLit "年") (rxSeq (rxPlus rxDigit) (rxLit "月期"))),
    rxSeq rxNum (rxSeq rxWsStar (rxLit "倍")),
    rxSeq rxNum (rxSeq rxWsStar (rxLit "円")) ]

/-- `/\d{1,3}(?:,\d{3})*(?:\.\d+)?[百千万億円％%]/` — the numeric-rescue test
used by the snippet filter, the simplified context filter and fallback tier
(a). -/
def rxRescueNum : RxM := rxSeq rxNum (rxAnyOf ['百', '千', '万', '億', '円', '％', '%'])

/-- `.` of a JavaScript regex without the `s` flag (no line terminators). -/
def rxDot : RxM :=
  rxChar (fun c => !(c = '\n' || c = '\r' || c.val = 0x2028 || c.val = 0x2029))

/-- `NUM\s*百万円.*前年同期比.*\d+(?:\.\d+)?\s*<pct>` — the complete
financial-comparison bonus pattern. -/
def rxFullComparison (pct : RxM) : RxM :=
  rxSeq rxNum (rxSeq rxWsStar (rxSeq (rxLit "百万円") (rxSeq (rxStar rxDot)
    (rxSeq (rxLit "前年同期比") (rxSeq (rxStar rxDot)
      (rxSeq (rxPlus rxDigit) (rxSeq (rxOpt rxDecimal) (rxSeq rxWsStar pct))))))))

/-! ### Snippet scoring (`filterAndPrioritizeSnippets`) -/

/-- Punctuation stripped from the query before keyword extraction:
`/[？?！!。、]/g`. -/
def scoringPunct : List Char := ['？', '?', '！', '!', '。', '、']

/-- Query keywords: lowercase, strip punctuation, split on whitespace, keep
tokens longer than one character. -/
def queryKeywords (query : String) : List String :=
  (jsSplitWs (String.mk ((jsToLower query).data.filter
    (fun c => !scoringPunct.contains c)))).filter (fun w => 1 < w.length)

/-- `primaryFinancialTerms` (+25 each). -/
def primaryFinancialTerms : List String :=
  ["売上高", "営業利益", "当期純利益", "経常利益", "売上", "利益率", "収益", "業績"]

/-- `secondaryFinancialTerms` (+10 each). -/
def secondaryFinancialTerms : List String :=
  ["利益", "業績", "前年", "増減", "比較", "百万円", "予想", "実績", "決算", "四半期"]

/-- `contextualTerms` (+8 each). -/
def contextualTerms : List String :=
  ["最高", "更新", "達成", "好調", "堅調", "成長", "拡大", "向上", "改善"]

/-- `negativeTerms` of the snippet scorer (-50 each). -/
def negativeTermsScore : List String :=
  ["省略", "記載を省略", "記載なし", "該当なし", "該当事項はありません",
   "特に記載すべき事項はありません", "記載すべき事項はない", "該当する事項はありません",
   "ないため", "超えるため", "記載を省略しております", "記載を省略します",
   "該当する事項はない", "該当事項なし", "特になし", "記載事項なし"]

/-- `performanceIndicators` (+15 each). -/
def performanceIndicators : List String :=
  ["過去最高", "最高益", "最高売上", "連続増益", "連続増収", "大幅増益", "大幅増収"]

/-- The additive score assigned to one snippet by
`filterAndPrioritizeSnippets` (signed). -/
def snippetScore (query snippet : String) : Int :=
  let lowerSnippet := jsToLower snippet
  let kwScore : Int :=
    Int.ofNat (((queryKeywords query).map (fun kw => countOcc kw lowerSnippet * 10)).sum)
  let numericalScore : Int :=
    Int.ofNat ((numberPatterns.map (fun p => rxCountStr p snippet * 35)).sum)
  let primaryScore : Int :=
    Int.ofNat ((primaryFinancialTerms.filter (fun t => jsIncludes lowerSnippet t)).length * 25)
  let secondaryScore : Int :=
    Int.ofNat ((secondaryFinancialTerms.filter (fun t => jsIncludes lowerSnippet t)).length * 10)
  let contextualScore : Int :=
    Int.ofNat ((contextualTerms.filter (fun t => jsIncludes lowerSnippet t)).length * 8)
  let negativePenalty : Int :=
    Int.ofNat ((negativeTermsScore.filter (fun t => jsIncludes lowerSnippet t)).length * 50)
  let completeBonus : Int :=
    if jsIncludes snippet "百万円" &&
       (jsIncludes snippet "前年" || jsIncludes snippet "増" || jsIncludes snippet "減")
    then 20 else 0
  let comparisonBonus : Int := if rxTest (rxFullComparison (rxLit "％")) snippet then 30 else 0
  let perfScore : Int :=
    Int.ofNat ((performanceIndicators.filter (fun t => jsIncludes lowerSnippet t)).length * 15)
  let shortPenalty : Int := if snippet.length < 30 then 10 else 0
  let mediumBonus : Int := if 50 ≤ snippet.length && snippet.length ≤ 300 then 5 else 0
  kwScore + numericalScore + primaryScore + secondaryScore + contextualScore
    - negativePenalty + completeBonus + comparisonBonus + perfScore
    - shortPenalty + mediumBonus

/-- One scored snippet, as built by the `snippets.map` of the filter. -/
structure ScoredSnippet where
  snippet : String
  score : Int
  index : Nat
deriving DecidableEq

/-- `snippets.map((snippet, index) => {snippet, score, index})`. -/
def scoredSnippetsAux (query : String) : Nat → List String → List ScoredSnippet
  | _, [] => []
  | i, s :: rest =>
    { snippet := s, score := snippetScore query s, index := i }
      :: scoredSnippetsAux query (i + 1) rest

/-- The scored snippet list of `filterAndPrioritizeSnippets`. -/
def scoredSnippets (snippets : List String) (query : String) : List ScoredSnippet :=
  scoredSnippetsAux query 0 snippets

/-- The numeric-rescue test on a snippet. -/
def hasNumericalData (s : String) : Bool := rxTest rxRescueNum s

/-- The financial-term rescue list of the primary filter. -/
def rescueFinancialTerms : List String := ["営業利益", "売上高", "当期純利益", "利益"]

/-- Financial-term rescue test (on the lowercased snippet, as in the source). -/
def hasRescueTerms (s : String) : Bool :=
  rescueFinancialTerms.any (fun t => jsIncludes (jsToLower s) t)

/-- The primary keep predicate: positive score, numeric data, or a rescue
financial term. -/
def primaryKeep (item : ScoredSnippet) : Bool :=
  decide (0 < item.score) || hasNumericalData item.snippet || hasRescueTerms item.snippet

/-- The comparator `(a, b) => b.score - a.score` as a relation. -/
def scoreOrder (a b : ScoredSnippet) : Prop := b.score ≤ a.score

instance : DecidableRel scoreOrder := fun a b => Int.decLe b.score a.score

instance : IsTotal ScoredSnippet scoreOrder :=
  ⟨fun a b => le_total b.score a.score⟩

instance : IsTrans ScoredSnippet scoreOrder :=
  ⟨fun _ _ _ h1 h2 => le_trans h2 h1⟩

/-- `Array.prototype.sort` with the descending-score comparator, modelled by
the stable `insertionSort`. -/
def sortByScoreDesc (l : List ScoredSnippet) : List ScoredSnippet :=
  List.insertionSort scoreOrder l

/-- `topSnippets` of `filterAndPrioritizeSnippets`: filter by the keep
predicate, sort descending by score, truncate to 5, project the strings. -/
def primarySelection (snippets : List String) (query : String) : List String :=
  (((sortByScoreDesc ((scoredSnippets snippets query).filter primaryKeep)).take 5).map
    (fun item => item.snippet))

/-- Strong-negative test shared by the fallback tiers. -/
def hasStrongNegative (s : String) : Bool :=
  (["省略", "記載なし", "該当なし"] : List String).any (fun t => jsIncludes (jsToLower s) t)

/-- Fallback tier (a): numeric data or a financial term, and no strong
negative. -/
def fallbackNumericalSnippets (snippets : List String) : List String :=
  snippets.filter (fun s =>
    (hasNumericalData s ||
      (["売上高", "営業利益", "当期純利益", "経常利益", "利益", "業績"] : List String).any
        (fun t => jsIncludes (jsToLower s) t)) && !hasStrongNegative s)

/-- Fallback tier (b): general financial-context terms, no strong negative. -/
def fallbackFinancialContext (snippets : List String) : List String :=
  snippets.filter (fun s =>
    (["決算", "業績", "財務", "利益", "売上", "収益"] : List String).any
      (fun t => jsIncludes (jsToLower s) t) && !hasStrongNegative s)

/-- Fallback tier (c): snippets without strong-negative terms. -/
def fallbackNonNegative (snippets : List String) : List String :=
  snippets.filter (fun s => !hasStrongNegative s)

/-- `filterAndPrioritizeSnippets` of `rag-service.ts`. -/
def filterAndPrioritizeSnippets (snippets : List String) (query : String) : List String :=
  if snippets.isEmpty then []
  else
    let topSnippets := primarySelection snippets query
    if topSnippets.isEmpty && !snippets.isEmpty then
      let tierA := fallbackNumericalSnippets snippets
      if !tierA.isEmpty then tierA.take 3
      else
        let tierB := fallbackFinancialContext snippets
        if !tierB.isEmpty then tierB.take 2
        else
          let tierC := fallbackNonNegative snippets
          if !tierC.isEmpty then tierC.take 1
          else snippets.take 1
    else topSnippets

/-! ### The nested retrieval payloads

Discovery-Engine payloads are protobuf-JSON values: strings, objects, lists,
null. `structData` rows of the Q&A index are flat string records and are
modelled as string-valued association lists; `derivedStructData` is deeply
nested and is modelled by the `JVal` tree. -/

/-- A JSON-like payload value. -/
inductive JVal where
  | str (s : String)
  | obj (fields : List (String × JVal))
  | arr (elems : List JVal)
  | null

/-- Key lookup in a payload object. -/
def jLookup : List (String × JVal) → String → Option JVal
  | [], _ => none
  | (k, v) :: rest, key => if k = key then some v else jLookup rest key

/-- JavaScript truthiness of a payload value. -/
def jTruthy : JVal → Bool
  | .str s => !(s = "")
  | .obj _ => true
  | .arr _ => true
  | .null => false

/-- Optional-chaining path access: `v?.k1?.k2...`. -/
def jPath (v : JVal) : List String → Option JVal
  | [] => some v
  | k :: ks =>
    match v with
    | .obj fs =>
      match jLookup fs k with
      | some w => jPath w ks
      | none => none
    | _ => none

/-- Keep a lookup result only when truthy (`a?.b &&`-style guards). -/
def jTruthyOpt (v : Option JVal) : Option JVal :=
  match v with
  | some w => if jTruthy w then some w else none
  | none => none

/-- First truthy candidate of an `if/else if` probing chain. -/
def firstTruthy : List (Option JVal) → Option JVal
  | [] => none
  | c :: rest =>
    match jTruthyOpt c with
    | some v => some v
    | none => firstTruthy rest

mutual

/-- Array elements stringify `null` as the empty string inside a join. -/
def jvalInterpElem : JVal → String
  | .null => ""
  | .str s => s
  | .obj _ => "[object Object]"
  | .arr l => jvalInterpList l

/-- `Array.prototype.toString`: comma-join of the stringified elements. -/
def jvalInterpList : List JVal → String
  | [] => ""
  | [x] => jvalInterpElem x
  | x :: y :: rest => jvalInterpElem x ++ "," ++ jvalInterpList (y :: rest)

end

/-- Template-literal stringification of a payload value (`${v}`). -/
def jvalInterp : JVal → String
  | .str s => s
  | .obj _ => "[object Object]"
  | .arr l => jvalInterpList l
  | .null => "null"

/-! ### Search results (`discovery-engine.ts` shapes) -/

/-- A retrieved document: identifier, flat structured record, optional
derived payload. -/
structure SearchDocument where
  id : String
  structData : List (String × String)
  derivedStructData : Option (List (String × JVal))

/-- One retrieval hit. -/
structure SearchResult where
  document : SearchDocument
  relevanceScore : Option Rat

/-- The retrieval response. -/
structure SearchResponse where
  results : List SearchResult
  totalSize : Nat

/-- Field lookup in a flat structured record. -/
def sLookup : List (String × String) → String → Option String
  | [], _ => none
  | (k, v) :: rest, key => if k = key then some v else sLookup rest key

/-- Truthiness of a structured field (`data.f &&` on a string field). -/
def sTruthy (data : List (String × String)) (key : String) : Bool :=
  match sLookup data key with
  | some s => !(s = "")
  | none => false

/-- First truthy field of an ordered candidate list (the `for (const field of
fields) { if (data[field]) break }` probing idiom); empty string when none. -/
def firstField (data : List (String × String)) : List String → String
  | [] => ""
  | f :: fs =>
    match sLookup data f with
    | some s => if !(s = "") then s else firstField data fs
    | none => firstField data fs

/-! ### Response envelope -/

/-- `DocumentReference` of `firestore.ts`. -/
structure DocumentReference where
  id : String
  title : String
  source : String
  relevanceScore : Rat
deriving DecidableEq

/-- `RAGResponse` of `rag-service.ts`. -/
structure RAGResponse where
  answer : String
  sources : List DocumentReference
  confidence : Rat
  searchResultsCount : Nat
deriving DecidableEq

/-! ### `scoreExtractiveAnswer` and `extractExtractiveAnswers` -/

/-- The 9 `numericalPatterns` regexes of `scoreExtractiveAnswer`, in source
order (each counted at +50 per match). -/
def extractivePatterns : List RxM :=
  [ rxSeq rxNum (rxAnyOf ['百', '千', '万', '億', '円']),
    rxSeq rxNum (rxSeq rxWsStar (rxSeq (rxAnyOf ['百', '千', '万', '億']) (rxLit "円"))),
    rxMetric "営業利益",
    rxMetric "売上高",
    rxMetric "当期純利益",
    rxSeq rxNum (rxSeq rxWsStar (rxAnyOf ['％', '%'])),
    rxYoY (rxAnyOf ['％', '%']),
    rxPctChange (rxAnyOf ['％', '%']),
    rxSeq (rxCount rxDigit 4) (rxSeq (rxLit "年") (rxSeq (rxRepRange rxDigit 1 2) (rxLit "月期"))) ]

/-- `scoreExtractiveAnswer` of `rag-service.ts`. -/
def scoreExtractiveAnswer (text query : String) : Int :=
  let lowerText := jsToLower text
  let kwScore : Int :=
    Int.ofNat (((queryKeywords query).map (fun kw => countOcc kw lowerText * 15)).sum)
  let numericalScore : Int :=
    Int.ofNat ((extractivePatterns.map (fun p => rxCountStr p text * 50)).sum)
  let primaryScore : Int :=
    Int.ofNat (((["営業利益", "売上高", "当期純利益", "経常利益"] : List String).filter
      (fun t => jsIncludes lowerText t)).length * 30)
  let secondaryScore : Int :=
    Int.ofNat (((["利益", "業績", "前年", "増減", "比較", "百万円"] : List String).filter
      (fun t => jsIncludes lowerText t)).length * 15)
  let negativePenalty : Int :=
    Int.ofNat (((["省略", "記載なし", "該当なし", "該当事項はありません",
      "記載すべき事項はない", "ないため"] : List String).filter
      (fun t => jsIncludes lowerText t)).length * 100)
  let comparisonBonus : Int :=
    if rxTest (rxFullComparison (rxAnyOf ['％', '%'])) text then 100 else 0
  kwScore + numericalScore + primaryScore + secondaryScore - negativePenalty + comparisonBonus

/-- A scored extractive answer. -/
structure ScoredAnswer where
  content : String
  score : Int
deriving DecidableEq

/-- Comparator `(a, b) => b.score - a.score` on scored answers. -/
def answerOrder (a b : ScoredAnswer) : Prop := b.score ≤ a.score

instance : DecidableRel answerOrder := fun a b => Int.decLe b.score a.score

instance : IsTotal ScoredAnswer answerOrder :=
  ⟨fun a b => le_total b.score a.score⟩

instance : IsTrans ScoredAnswer answerOrder :=
  ⟨fun _ _ _ h1 h2 => le_trans h2 h1⟩

/-- The probing chain for one extractive-answer value:
`structValue.fields.content.stringValue`, then
`structValue.fields.answer.stringValue`, then `stringValue`, then the value
itself when it is a plain string. -/
def extractiveValuePick (v : JVal) : Option JVal :=
  match firstTruthy
    [jPath v ["structValue", "fields", "content", "stringValue"],
     jPath v ["structValue", "fields", "answer", "stringValue"],
     jPath v ["stringValue"]] with
  | some w => some w
  | none =>
    match v with
    | .str s => some (.str s)
    | _ => none

/-- The raw text of one extractive-answer value, when it is a string longer
than 10 characters (a truthy non-string pick fails the `length > 10` guard). -/
def extractiveRawText (v : JVal) : Option String :=
  match extractiveValuePick v with
  | some (.str s) => if 10 < s.length then some s else none
  | _ => none

/-- The deduplication of `Array.from(new Set(...))`: keep first occurrences
in insertion order. -/
def dedupFirstAux (seen : List String) : List String → List String
  | [] => []
  | x :: xs =>
    if seen.contains x then dedupFirstAux seen xs
    else x :: dedupFirstAux (x :: seen) xs

/-- Keep the first occurrence of every string. -/
def dedupFirst (l : List String) : List String := dedupFirstAux [] l

/-- The extractive answers contributed by one hit: probe
`derivedStructData.extractive_answers.values`, sanitize, keep texts longer
than 10 characters, sort by score descending. -/
def answersFromResult (query : String) (r : SearchResult) : List String :=
  match r.document.derivedStructData with
  | none => []
  | some dd =>
    match jLookup dd "extractive_answers" with
    | some (.obj eaFields) =>
      match jLookup eaFields "values" with
      | some (.arr vals) =>
        let scored := vals.filterMap (fun v =>
          (extractiveRawText v).bind (fun raw =>
            let cleanedText := sanitizeText raw
            if 10 < cleanedText.length then
              some { content := cleanedText, score := scoreExtractiveAnswer cleanedText query }
            else none))
        ((List.insertionSort answerOrder scored).map (fun a => a.content))
      | _ => []
    | _ => []

/-- `extractExtractiveAnswers` of `rag-service.ts`: collect per hit, dedupe,
keep the top 3. -/
def extractExtractiveAnswers (results : List SearchResult) (query : String) : List String :=
  (dedupFirst (results.flatMap (answersFromResult query))).take 3

/-! ### `extractSnippetsFromPDF` -/

/-- The probing chain for one snippet value of the `values`/`listValue`
branches: `structValue.fields.snippet.stringValue`, then
`structValue.fields.content.stringValue`, then `stringValue`, then the value
itself when it is a plain string. -/
def snippetValuePick (v : JVal) : Option JVal :=
  match firstTruthy
    [jPath v ["structValue", "fields", "snippet", "stringValue"],
     jPath v ["structValue", "fields", "content", "stringValue"],
     jPath v ["stringValue"]] with
  | some w => some w
  | none =>
    match v with
    | .str s => some (.str s)
    | _ => none

/-- One snippet value of the structured branches: filter out placeholders,
sanitize, keep only texts longer than 10 characters. -/
def cleanedSnippetOfValue (v : JVal) : Option String :=
  match snippetValuePick v with
  | some (.str s) =>
    if !(s = "") && !(s = "No snippet is available for this page.") &&
       10 < s.length && !jsIncludes s "snippet not available" then
      let cleanedText := sanitizeText s
      if 10 < cleanedText.length then some cleanedText else none
    else none
  | _ => none

/-- The `content` probe of the plain-array branch (`snippet?.content`, pushed
raw). -/
def arrayContentFallback (fs : List (String × JVal)) : Option String :=
  match jLookup fs "content" with
  | some (.str s) => if !(s = "") then some s else none
  | _ => none

/-- One element of the plain-array branch: a raw string longer than 10
characters, or the raw `snippet`/`content` string property (no length check,
no sanitization). -/
def rawArraySnippet (v : JVal) : Option String :=
  match v with
  | .str s => if 10 < s.length then some s else none
  | .obj fs =>
    match jLookup fs "snippet" with
    | some (.str s) => if !(s = "") then some s else arrayContentFallback fs
    | _ => arrayContentFallback fs
  | _ => none

/-- The final `else if (snippetData.snippet && typeof ... === 'string')`
branch: sanitize the single `snippet` property. -/
def snippetPropBranch (fs : List (String × JVal)) : List String :=
  match jLookup fs "snippet" with
  | some (.str s) =>
    if s = "" then []
    else
      let cleanedText := sanitizeText s
      if 10 < cleanedText.length then [cleanedText] else []
  | _ => []

/-- The `else if (snippetData.listValue?.values)` branch, falling through to
the `snippet`-property branch. -/
def listValueBranch (fs : List (String × JVal)) : List String :=
  match jPath (.obj fs) ["listValue", "values"] with
  | some (.arr vals) => vals.filterMap cleanedSnippetOfValue
  | _ => snippetPropBranch fs

/-- `extractSnippetsFromPDF` of `rag-service.ts` (the `snippets` argument is
the payload value found under `derivedStructData`): plain arrays push raw
entries; object payloads run the `values` / `listValue.values` /
`snippet`-property probing chain with sanitization. -/
def extractSnippetsFromPDF (snippets : JVal) : List String :=
  if !jTruthy snippets then []
  else
    match snippets with
    | .arr elems => elems.filterMap rawArraySnippet
    | .obj fs =>
      match jLookup fs "values" with
      | some (.arr vals) => vals.filterMap cleanedSnippetOfValue
      | _ => listValueBranch fs
    | _ => []

/-! ### `buildContextFromResults` -/

/-- Classification: a hit is Q&A when any of `question`, `answer`, `q`, `a`
is a truthy structured field; every other hit (PDF-shaped or unclassifiable)
is processed as PDF content. -/
def hasQA (r : SearchResult) : Bool :=
  sTruthy r.document.structData "question" || sTruthy r.document.structData "answer" ||
  sTruthy r.document.structData "q" || sTruthy r.document.structData "a"

/-- `questionFields` of the context builder. -/
def questionFields : List String := ["question", "q", "query", "title", "質問", "Question"]

/-- `answerFields` of the context builder. -/
def answerFields : List String := ["answer", "a", "response", "content", "回答", "Answer"]

/-- `companyFields`. -/
def companyFields : List String := ["company", "enterprise", "corp", "企業", "Company"]

/-- One `[Q&A文書N]` context block. -/
def qaBlock (r : SearchResult) (idx : Nat) : String :=
  let data := r.document.structData
  let question := firstField data questionFields
  let answer := firstField data answerFields
  let company := firstField data companyFields
  "[Q&A文書" ++ toString (idx + 1) ++ "]"
    ++ (if !(company = "") then " 企業: " ++ company else "")
    ++ (if !(question = "") then "\n質問: " ++ question else "")
    ++ (if !(answer = "") then "\n回答: " ++ answer else "")

/-- `derivedData?.k || derivedData?.fields?.k`, kept only when truthy. -/
def ddGet (dd : Option (List (String × JVal))) (key : String) : Option JVal :=
  match dd with
  | none => none
  | some fs =>
    match jTruthyOpt (jLookup fs key) with
    | some v => some v
    | none => jTruthyOpt (jPath (.obj fs) ["fields", key])

/-- `typeof v === 'string' ? v : v?.stringValue || v` rendered into the
template literal. -/
def displayText (v : JVal) : String :=
  match v with
  | .str s => s
  | .obj fs =>
    match jTruthyOpt (jLookup fs "stringValue") with
    | some sv => jvalInterp sv
    | none => jvalInterp (.obj fs)
  | w => jvalInterp w

/-- The `[PDF資料N]` header with optional title and source link. -/
def pdfHeader (r : SearchResult) (idx : Nat) : String :=
  "[PDF資料" ++ toString (idx + 1) ++ "]"
    ++ (match ddGet r.document.derivedStructData "title" with
        | some t => " タイトル: " ++ displayText t
        | none => "")
    ++ (match ddGet r.document.derivedStructData "link" with
        | some l => "\nソース: " ++ displayText l
        | none => "")

/-- `structData` content fields probed first for PDF content. -/
def structContentFields : List String := ["text", "content", "body", "extractedText"]

/-- `derivedStructData` content fields probed second. -/
def derivedContentFields : List String := ["content", "text", "body", "extractedText"]

/-- First truthy string field of the derived payload among the candidates
(`derivedData?.[field] && typeof derivedData[field] === 'string'`). -/
def firstDerivedStrAux (fs : List (String × JVal)) : List String → String
  | [] => ""
  | f :: rest =>
    match jLookup fs f with
    | some (.str s) => if !(s = "") then s else firstDerivedStrAux fs rest
    | _ => firstDerivedStrAux fs rest

/-- Derived-payload content probe. -/
def firstDerivedStr (dd : Option (List (String × JVal))) (fields : List String) : String :=
  match dd with
  | none => ""
  | some fs => firstDerivedStrAux fs fields

/-- The simplified relevance filter applied to extracted snippets inside the
context builder (numeric data or a rescue financial term, and no strong
negative). -/
def simpleSnippetKeep (s : String) : Bool :=
  let hasNumbers := hasNumericalData s
  let hasFinTerms := (["営業利益", "売上高", "当期純利益", "利益"] : List String).any
    (fun t => jsIncludes (jsToLower s) t)
  let hasNeg := (["省略", "記載なし", "該当なし"] : List String).any
    (fun t => jsIncludes (jsToLower s) t)
  (hasNumbers || hasFinTerms) && !hasNeg

/-- The PDF content resolved for one hit, tier by tier: structured string
fields, derived string fields, then filtered snippets joined by spaces; empty
string when every tier fails. -/
def resolvePdfContent (r : SearchResult) : String :=
  let data := r.document.structData
  let tier1 := firstField data structContentFields
  if !(tier1 = "") then tier1
  else
    let tier2 := firstDerivedStr r.document.derivedStructData derivedContentFields
    if !(tier2 = "") then tier2
    else
      match ddGet r.document.derivedStructData "snippets" with
      | some snippetsData =>
        let allSnippets := extractSnippetsFromPDF snippetsData
        let relevantSnippets := allSnippets.filter simpleSnippetKeep
        if !relevantSnippets.isEmpty then joinSep " " (relevantSnippets.take 3)
        else ""
      | none => ""

/-- The content line of a PDF block: the resolved content truncated to 800
characters with an ellipsis marker, or an explicit unavailable marker. -/
def pdfContentLine (c : String) : String :=
  if c = "" then "\n内容: [内容が取得できませんでした]"
  else "\n内容: " ++ (if 800 < c.length then String.mk (c.data.take 800) ++ "..." else c)

/-- One `[PDF資料N]` context block. -/
def pdfBlock (r : SearchResult) (idx : Nat) : String :=
  pdfHeader r idx ++ pdfContentLine (resolvePdfContent r)

/-- The extractive-answer blocks `[抽出回答N] ...`. -/
def extractivePartsAux : Nat → List String → List String
  | _, [] => []
  | i, a :: rest => ("[抽出回答" ++ toString (i + 1) ++ "] " ++ a) :: extractivePartsAux (i + 1) rest

/-- The Q&A blocks in order. -/
def qaPartsAux : Nat → List SearchResult → List String
  | _, [] => []
  | i, r :: rest => qaBlock r i :: qaPartsAux (i + 1) rest

/-- The PDF blocks in order. -/
def pdfPartsAux : Nat → List SearchResult → List String
  | _, [] => []
  | i, r :: rest => pdfBlock r i :: pdfPartsAux (i + 1) rest

/-- `buildContextFromResults` of `rag-service.ts`: extractive-answer blocks,
then Q&A blocks, then PDF blocks, joined by blank lines. -/
def buildContextFromResults (results : List SearchResult) (query : String) : String :=
  let extractiveParts := extractivePartsAux 0 (extractExtractiveAnswers results query)
  let qaResults := results.filter hasQA
  let pdfResults := results.filter (fun r => !hasQA r)
  joinSep "\n\n" (extractiveParts ++ qaPartsAux 0 qaResults ++ pdfPartsAux 0 pdfResults)

/-! ### `generateTextWithGemini` (`vertex-ai.ts`) -/

/-- One part of a candidate's content. -/
structure VertexPart where
  text : String
deriving DecidableEq

/-- One candidate of a Vertex AI prediction (the `content` field is absent
when `none`). -/
structure VertexCandidate where
  content : Option (List VertexPart)
  finishReason : Option String
  hasCitationMetadata : Bool
deriving DecidableEq

/-- One prediction. -/
structure VertexPrediction where
  candidates : List VertexCandidate
deriving DecidableEq

/-- `GenerateTextResponse` of `vertex-ai.ts`. -/
structure GenerateTextResponse where
  text : String
  confidence : Rat
  finishReason : String
deriving DecidableEq

/-- `generateTextWithGemini`: the argument is the raw outcome of the
`client.predict` call (`Except.error` = the call rejected); every failure is
rethrown with the `Failed to generate text:` wrapper, and a successful
response carries confidence 0.9 with citation metadata and 0.7 without. -/
def generateTextWithGemini (predictOutcome : Except String (List VertexPrediction)) :
    Except String GenerateTextResponse :=
  match predictOutcome with
  | .error e => .error ("Failed to generate text: " ++ e)
  | .ok preds =>
    match preds with
    | [] => .error "Failed to generate text: No predictions returned from Vertex AI"
    | p :: _ =>
      match p.candidates with
      | [] => .error "Failed to generate text: No candidates in Vertex AI response"
      | c :: _ =>
        match c.content with
        | none => .error "Failed to generate text: No content parts in Vertex AI response"
        | some parts =>
          match parts with
          | [] => .error "Failed to generate text: No content parts in Vertex AI response"
          | part :: _ =>
            .ok { text := part.text,
                  confidence := if c.hasCitationMetadata then 9/10 else 7/10,
                  finishReason := c.finishReason.getD "STOP" }

/-! ### The exact/near-match detector and the orchestrator
(`generateRAGResponse`) -/

/-- Punctuation stripped by the match detector: `/[？。、！]/g` (note: a
different set from the scorers' `/[？?！!。、]/g`). -/
def matchPunct : List Char := ['？', '。', '、', '！']

/-- Tokenize a normalized question/query for the similarity check. -/
def matchTokens (s : String) : List String :=
  jsSplitWs (String.mk (s.data.filter (fun c => !matchPunct.contains c)))

/-- Token-overlap similarity: stored-question tokens for which either token
contains the other as a substring, over the larger token count. -/
def questionSimilarity (originalQuestion userQuery : String) : Rat :=
  let originalWords := matchTokens originalQuestion
  let queryWords := matchTokens userQuery
  let matchingWords := originalWords.filter
    (fun w => queryWords.any (fun q => jsIncludes w q || jsIncludes q w))
  (matchingWords.length : Rat) / ((max originalWords.length queryWords.length : Nat) : Rat)

/-- The lowercased, trimmed stored question of a hit. -/
def normQuestion (r : SearchResult) : String :=
  jsTrim (jsToLower ((sLookup r.document.structData "question").getD ""))

/-- The lowercased, trimmed user query. -/
def normQuery (query : String) : String := jsTrim (jsToLower query)

/-- A hit qualifies for the direct-answer bypass: truthy `question` and
`answer` fields, and an exact normalized match or similarity at least 0.5. -/
def qualifies (query : String) (r : SearchResult) : Bool :=
  sTruthy r.document.structData "question" && sTruthy r.document.structData "answer" &&
    (normQuestion r = normQuery query ||
     decide ((1 : Rat) / 2 ≤ questionSimilarity (normQuestion r) (normQuery query)))

/-- `exactMatch ? 1.0 : similarity` of the direct-answer branch. -/
def matchConfidence (query : String) (r : SearchResult) : Rat :=
  if normQuestion r = normQuery query then 1
  else questionSimilarity (normQuestion r) (normQuery query)

/-- The immediate response returned for a qualifying hit. -/
def directResponse (query : String) (r : SearchResult) : RAGResponse :=
  let data := r.document.structData
  { answer := (sLookup data "answer").getD ""
    sources := [{ id := r.document.id
                  title := (sLookup data "question").getD ""
                  source := (let c := (sLookup data "company").getD ""
                             if !(c = "") then c else "情報源不明")
                  relevanceScore := matchConfidence query r }]
    confidence := matchConfidence query r
    searchResultsCount := 1 }

/-- The body of the step-1.5 loop for one hit. -/
def matchCheck (query : String) (r : SearchResult) : Option RAGResponse :=
  if qualifies query r then some (directResponse query r) else none

/-- The step-1.5 loop: first qualifying hit in retrieval order wins. -/
def findDirectMatch (query : String) : List SearchResult → Option RAGResponse
  | [] => none
  | r :: rest =>
    match matchCheck query r with
    | some resp => some resp
    | none => findDirectMatch query rest

/-- The fixed zero-results message. -/
def noResultsAnswer : String :=
  "申し訳ございませんが、お尋ねの内容に関する情報が見つかりませんでした。別の質問や、より具体的な企業名・トピックを含めて再度お試しください。"

/-- The fixed empty-context message. -/
def insufficientContextAnswer : String :=
  "申し訳ございませんが、お尋ねの内容に関する十分な情報が見つかりませんでした。より具体的な質問をしていただけますでしょうか。"

/-- The fixed lead-in prefixed to the raw-answer fallback. -/
def fallbackLeadIn : String := "以下の関連情報をお答えします：\n\n"

/-- The fixed message when generation failed and no raw answer is usable. -/
def systemTroubleAnswer : String :=
  "申し訳ございませんが、現在システムに一時的な問題が発生しております。しばらくしてから再度お試しください。"

/-- The generation-failure fallback predicate: a truthy `answer` field longer
than 10 characters. -/
def goodFallbackAnswer (r : SearchResult) : Bool :=
  sTruthy r.document.structData "answer" &&
    10 < ((sLookup r.document.structData "answer").getD "").length

/-- The response of the generation-failure fallback for one usable hit. -/
def fallbackResponse (r : SearchResult) (resultsCount : Nat) : RAGResponse :=
  let data := r.document.structData
  { answer := fallbackLeadIn ++ (sLookup data "answer").getD ""
    sources := [{ id := r.document.id
                  title := (let q := (sLookup data "question").getD ""
                            if !(q = "") then q else "タイトルなし")
                  source := (let c := (sLookup data "company").getD ""
                             if !(c = "") then c else "情報源不明")
                  relevanceScore := 8/10 }]
    confidence := 8/10
    searchResultsCount := resultsCount }

/-- The step-5 document reference built from one hit. -/
def buildSource (r : SearchResult) : DocumentReference :=
  let data := r.document.structData
  { id := r.document.id
    title := (let t := firstField data ["question", "title", "q", "質問", "Question"]
              if !(t = "") then t else "タイトルなし")
    source := (let c := firstField data companyFields
               if !(c = "") then c else "情報源不明")
    relevanceScore := r.relevanceScore.getD 0 }

/-- `generateRAGResponse` of `rag-service.ts`, given the retrieval response
and the generation-call oracle (the remaining request fields —
conversation history, `maxResults`, `companyId` — only shape the two external
calls and are absorbed by the two oracles). -/
def generateRAGResponse (query : String) (searchResponse : SearchResponse)
    (vertex : Except String (List VertexPrediction)) : RAGResponse :=
  if searchResponse.results.length = 0 then
    { answer := noResultsAnswer, sources := [], confidence := 0, searchResultsCount := 0 }
  else
    match findDirectMatch query searchResponse.results with
    | some resp => resp
    | none =>
      if (jsTrim (buildContextFromResults searchResponse.results query)).length = 0 then
        { answer := insufficientContextAnswer, sources := [], confidence := 0,
          searchResultsCount := searchResponse.results.length }
      else
        match generateTextWithGemini vertex with
        | .ok gen =>
          { answer := gen.text, sources := searchResponse.results.map buildSource,
            confidence := gen.confidence,
            searchResultsCount := searchResponse.results.length }
        | .error _ =>
          match searchResponse.results.find? goodFallbackAnswer with
          | some r => fallbackResponse r searchResponse.results.length
          | none =>
            { answer := systemTroubleAnswer, sources := [], confidence := 0,
              searchResultsCount := 0 }

/-! ### Sample data used by the concrete witnesses -/

/-- A Q&A hit whose stored question matches the query "test" exactly. -/
def hitExact : SearchResult :=
  { document := { id := "d1",
                  structData := [("question", "Test"), ("answer", "A1")],
                  derivedStructData := none },
    relevanceScore := none }

/-- A hit with only a long `answer` field (no `question`). -/
def hitAnswerOnly : SearchResult :=
  { document := { id := "d2",
                  structData := [("answer", "abcdefghijkl")],
                  derivedStructData := none },
    relevanceScore := none }

/-- A bare hit with no usable fields at all. -/
def hitBare : SearchResult :=
  { document := { id := "d3", structData := [], derivedStructData := none },
    relevanceScore := none }

/-! ### Generic lemmas about the string primitives -/

theorem data_append (a b : String) : (a ++ b).data = a.data ++ b.data := rfl

theorem length_mk (l : List Char) : (String.mk l).length = l.length := rfl

theorem mem_data_append_left (a b : String) (c : Char) (h : c ∈ a.data) :
    c ∈ (a ++ b).data := by
  rw [data_append]; exact List.mem_append_left _ h

theorem mem_data_joinSep (sep : String) (c : Char) :
    ∀ (l : List String) (x : String), x ∈ l → c ∈ x.data → c ∈ (joinSep sep l).data := by
  intro l
  induction l with
  | nil => intro x hx; simp at hx
  | cons y rest ih =>
    intro x hx hc
    rcases rest with _ | ⟨z, rest2⟩
    · rcases List.mem_singleton.mp hx with rfl
      simpa [joinSep] using hc
    · rcases List.mem_cons.mp hx with rfl | hm
      · show c ∈ (x ++ sep ++ joinSep sep (z :: rest2)).data
        exact mem_data_append_left _ _ _ (mem_data_append_left _ _ _ hc)
      · show c ∈ (y ++ sep ++ joinSep sep (z :: rest2)).data
        rw [data_append]
        exact List.mem_append_right _ (ih x hm hc)

theorem mem_dropWhile_of_not (p : Char → Bool) (c : Char) :
    ∀ l : List Char, c ∈ l → p c = false → c ∈ l.dropWhile p := by
  intro l
  induction l with
  | nil => intro h; simp at h
  | cons x xs ih =>
    intro h hp
    rw [List.dropWhile_cons]
    split
    · rcases List.mem_cons.mp h with rfl | hm
      · simp_all
      · exact ih hm hp
    · exact h

theorem jsTrim_length_ne_zero (s : String) (c : Char) (hc : c ∈ s.data)
    (hw : jsIsSpace c = false) : (jsTrim s).length ≠ 0 := by
  have h1 : c ∈ s.data.dropWhile jsIsSpace := mem_dropWhile_of_not _ _ _ hc hw
  have h2 : c ∈ (s.data.dropWhile jsIsSpace).reverse := List.mem_reverse.mpr h1
  have h3 : c ∈ (s.data.dropWhile jsIsSpace).reverse.dropWhile jsIsSpace :=
    mem_dropWhile_of_not _ _ _ h2 hw
  have h4 : c ∈ ((s.data.dropWhile jsIsSpace).reverse.dropWhile jsIsSpace).reverse :=
    List.mem_reverse.mpr h3
  have h5 := List.ne_nil_of_mem h4
  unfold jsTrim
  rw [length_mk]
  exact fun h0 => h5 (List.eq_nil_of_length_eq_zero h0)

theorem splitWsTok_ne_nil : ∀ (l : List Char) (acc : List Char), splitWsTok l acc ≠ [] := by
  intro l
  induction l with
  | nil => intro acc; simp [splitWsTok]
  | cons c cs ih =>
    intro acc
    unfold splitWsTok
    by_cases h : jsIsSpace c
    · simp [h]
    · simp only [h, Bool.false_eq_true, if_false]
      exact ih _

theorem jsSplitWs_ne_nil (s : String) : jsSplitWs s ≠ [] := splitWsTok_ne_nil _ _

theorem take_ne_nil_of_ne_nil (l : List String) (n : Nat) (h : l ≠ []) :
    l.take (n + 1) ≠ [] := by
  rcases l with _ | ⟨x, xs⟩
  · exact absurd rfl h
  · simp [List.take]

/-! ### Lemmas about the similarity, the match detector and the generator -/

theorem questionSimilarity_nonneg (a b : String) : 0 ≤ questionSimilarity a b := by
  unfold questionSimilarity
  apply div_nonneg
  · exact_mod_cast Nat.zero_le _
  · exact_mod_cast Nat.zero_le _

theorem questionSimilarity_le_one (a b : String) : questionSimilarity a b ≤ 1 := by
  unfold questionSimilarity
  have hne : matchTokens a ≠ [] := jsSplitWs_ne_nil _
  have hpos : 0 < max (matchTokens a).length (matchTokens b).length :=
    lt_of_lt_of_le (List.length_pos.mpr hne) (le_max_left _ _)
  rw [div_le_one (by exact_mod_cast hpos)]
  have hlen : ((matchTokens a).filter
      (fun w => (matchTokens b).any (fun q => jsIncludes w q || jsIncludes q w))).length ≤
      max (matchTokens a).length (matchTokens b).length :=
    le_trans (List.length_filter_le _ _) (le_max_left _ _)
  exact_mod_cast hlen

theorem matchConfidence_nonneg (query : String) (r : SearchResult) :
    0 ≤ matchConfidence query r := by
  unfold matchConfidence
  split
  · norm_num
  · exact questionSimilarity_nonneg _ _

theorem matchConfidence_le_one (query : String) (r : SearchResult) :
    matchConfidence query r ≤ 1 := by
  unfold matchConfidence
  split
  · norm_num
  · exact questionSimilarity_le_one _ _

theorem findDirectMatch_of_find? (query : String) :
    ∀ (l : List SearchResult) (r : SearchResult), l.find? (qualifies query) = some r →
      findDirectMatch query l = some (directResponse query r) := by
  intro l
  induction l with
  | nil => intro r h; simp at h
  | cons x xs ih =>
    intro r h
    by_cases hq : qualifies query x
    · rw [List.find?_cons_of_pos _ hq] at h
      injection h with h
      subst h
      simp [findDirectMatch, matchCheck, hq]
    · rw [List.find?_cons_of_neg _ hq] at h
      simp only [findDirectMatch, matchCheck, hq, Bool.false_eq_true, if_false]
      exact ih r h

theorem findDirectMatch_some_shape (query : String) :
    ∀ (l : List SearchResult) (resp : RAGResponse), findDirectMatch query l = some resp →
      ∃ r, resp = directResponse query r := by
  intro l
  induction l with
  | nil => intro resp h; simp [findDirectMatch] at h
  | cons x xs ih =>
    intro resp h
    unfold findDirectMatch matchCheck at h
    by_cases hq : qualifies query x
    · simp only [hq, if_true] at h
      injection h with h
      exact ⟨x, h.symm⟩
    · simp only [hq, Bool.false_eq_true, if_false] at h
      exact ih resp h

theorem generateTextWithGemini_confidence (v : Except String (List VertexPrediction))
    (g : GenerateTextResponse) (h : generateTextWithGemini v = .ok g) :
    g.confidence = 7/10 ∨ g.confidence = 9/10 := by
  unfold generateTextWithGemini at h
  rcases v with e | preds
  · simp at h
  · rcases preds with _ | ⟨p, rest⟩
    · simp at h
    · dsimp only at h
      rcases hc : p.candidates with _ | ⟨c, crest⟩
      · rw [hc] at h; simp at h
      · rw [hc] at h
        dsimp only at h
        rcases hcon : c.content with _ | parts
        · rw [hcon] at h; simp at h
        · rw [hcon] at h
          dsimp only at h
          rcases parts with _ | ⟨part, prest⟩
          · simp at h
          · simp only [Except.ok.injEq] at h
            by_cases hm : c.hasCitationMetadata
            · right; rw [← h]; simp [hm]
            · left; rw [← h]; simp [hm]

/-! ### Lemmas about the context-part lists -/

theorem pdfPartsAux_length : ∀ (i : Nat) (l : List SearchResult),
    (pdfPartsAux i l).length = l.length := by
  intro i l
  induction l generalizing i with
  | nil => rfl
  | cons r rest ih => simp [pdfPartsAux, ih]

theorem mem_qaPartsAux : ∀ (i : Nat) (l : List SearchResult) (p : String),
    p ∈ qaPartsAux i l → ∃ r j, p = qaBlock r j := by
  intro i l
  induction l generalizing i with
  | nil => intro p h; simp [qaPartsAux] at h
  | cons r rest ih =>
    intro p h
    rcases List.mem_cons.mp h with rfl | hm
    · exact ⟨r, i, rfl⟩
    · exact ih _ p hm

theorem mem_pdfPartsAux : ∀ (i : Nat) (l : List SearchResult) (p : String),
    p ∈ pdfPartsAux i l → ∃ r j, p = pdfBlock r j := by
  intro i l
  induction l generalizing i with
  | nil => intro p h; simp [pdfPartsAux] at h
  | cons r rest ih =>
    intro p h
    rcases List.mem_cons.mp h with rfl | hm
    · exact ⟨r, i, rfl⟩
    · exact ih _ p hm

theorem bracket_mem_qaBlock (r : SearchResult) (i : Nat) : '[' ∈ (qaBlock r i).data := by
  unfold qaBlock
  apply mem_data_append_left
  apply mem_data_append_left
  apply mem_data_append_left
  apply mem_data_append_left
  apply mem_data_append_left
  decide

theorem bracket_mem_pdfBlock (r : SearchResult) (i : Nat) : '[' ∈ (pdfBlock r i).data := by
  unfold pdfBlock pdfHeader
  apply mem_data_append_left
  apply mem_data_append_left
  apply mem_data_append_left
  apply mem_data_append_left
  apply mem_data_append_left
  decide

/-! ### Lemmas about the scored snippets -/

theorem mem_scoredSnippetsAux (query : String) :
    ∀ (i : Nat) (l : List String) (item : ScoredSnippet), item ∈ scoredSnippetsAux query i l →
      item.score = snippetScore query item.snippet := by
  intro i l
  induction l generalizing i with
  | nil => intro item h; simp [scoredSnippetsAux] at h
  | cons s rest ih =>
    intro item h
    rcases List.mem_cons.mp h with rfl | hm
    · rfl
    · exact ih _ item hm

/-! ### The fallback cascade of the snippet filter -/

/-- The snippet filter, rewritten as the claimed selection/fallback cascade
(for a non-empty fragment list). -/
theorem filterAndPrioritizeSnippets_eq (snippets : List String) (query : String)
    (h : snippets ≠ []) :
    filterAndPrioritizeSnippets snippets query =
      (if primarySelection snippets query ≠ [] then primarySelection snippets query
       else if fallbackNumericalSnippets snippets ≠ [] then
         (fallbackNumericalSnippets snippets).take 3
       else if fallbackFinancialContext snippets ≠ [] then
         (fallbackFinancialContext snippets).take 2
       else if fallbackNonNegative snippets ≠ [] then
         (fallbackNonNegative snippets).take 1
       else snippets.take 1) := by
  have hne : snippets.isEmpty = false := by
    cases snippets with
    | nil => exact absurd rfl h
    | cons a l => rfl
  unfold filterAndPrioritizeSnippets
  rw [hne]
  by_cases htop : primarySelection snippets query = []
  · have htop2 : (primarySelection snippets query).isEmpty = true := by
      rw [htop]; rfl
    simp only [htop2, hne, Bool.not_false, Bool.true_and, Bool.false_eq_true,
      if_false, if_true, if_neg (not_not_intro htop)]
    by_cases ha : fallbackNumericalSnippets snippets = []
    · have ha2 : (fallbackNumericalSnippets snippets).isEmpty = true := by rw [ha]; rfl
      simp only [ha2, Bool.not_true, Bool.false_eq_true, if_false,
        if_neg (not_not_intro ha)]
      by_cases hb : fallbackFinancialContext snippets = []
      · have hb2 : (fallbackFinancialContext snippets).isEmpty = true := by rw [hb]; rfl
        simp only [hb2, Bool.not_true, Bool.false_eq_true, if_false,
          if_neg (not_not_intro hb)]
        by_cases hc : fallbackNonNegative snippets = []
        · have hc2 : (fallbackNonNegative snippets).isEmpty = true := by rw [hc]; rfl
          simp only [hc2, Bool.not_true, Bool.false_eq_true, if_false,
            if_neg (not_not_intro hc)]
        · have hc2 : (fallbackNonNegative snippets).isEmpty = false := by
            cases hcc : fallbackNonNegative snippets with
            | nil => exact absurd hcc hc
            | cons a l => rfl
          simp only [hc2, Bool.not_false, if_true, if_pos hc]
      · have hb2 : (fallbackFinancialContext snippets).isEmpty = false := by
          cases hbb : fallbackFinancialContext snippets with
          | nil => exact absurd hbb hb
          | cons a l => rfl
        simp only [hb2, Bool.not_false, if_true, if_pos hb]
    · have ha2 : (fallbackNumericalSnippets snippets).isEmpty = false := by
        cases haa : fallbackNumericalSnippets snippets with
        | nil => exact absurd haa ha
        | cons a l => rfl
      simp only [ha2, Bool.not_false, if_true, if_pos ha]
  · have htop2 : (primarySelection snippets query).isEmpty = false := by
      cases htt : primarySelection snippets query with
      | nil => exact absurd htt htop
      | cons a l => rfl
    simp only [htop2, Bool.false_and, Bool.false_eq_true, if_false, if_pos htop]

/-- C3: the primary selection of the snippet filter is the scored fragment
list restricted to fragments with positive score, numeric financial data
(currency/percentage pattern) or a rescue financial term, arranged in
descending score order, truncated to at most 5 fragments. -/
theorem snippet_primary_selection_ranked (snippets : List String) (query : String) :
    ∃ ranked : List ScoredSnippet,
      ranked.Perm ((scoredSnippets snippets query).filter primaryKeep) ∧
      List.Sorted scoreOrder ranked ∧
      primarySelection snippets query = (ranked.take 5).map (fun item => item.snippet) ∧
      ranked.all (fun item =>
        decide (0 < item.score) || hasNumericalData item.snippet ||
          hasRescueTerms item.snippet) = true := by
  refine ⟨sortByScoreDesc ((scoredSnippets snippets query).filter primaryKeep),
    List.perm_insertionSort _ _, List.sorted_insertionSort _ _, rfl, ?_⟩
  rw [List.all_eq_true]
  intro item hi
  have hmem : item ∈ (scoredSnippets snippets query).filter primaryKeep :=
    (List.perm_insertionSort _ _).mem_iff.mp hi
  exact (List.mem_filter.mp hmem).2

/-- C4: for a non-empty fragment list the snippet filter never returns the
empty list, and when the primary selection is empty it degrades through the
fallback tiers (a) numeric/financial fragments without strong negatives (up
to 3), (b) financial-context fragments without strong negatives (up to 2),
(c) the first fragment without strong negatives, (d) the first fragment. -/
theorem snippet_filter_never_empty (snippets : List String) (query : String)
    (h : snippets ≠ []) :
    filterAndPrioritizeSnippets snippets query ≠ [] ∧
    (primarySelection snippets query = [] →
      filterAndPrioritizeSnippets snippets query =
        (if fallbackNumericalSnippets snippets ≠ [] then
           (fallbackNumericalSnippets snippets).take 3
         else if fallbackFinancialContext snippets ≠ [] then
           (fallbackFinancialContext snippets).take 2
         else if fallbackNonNegative snippets ≠ [] then
           (fallbackNonNegative snippets).take 1
         else snippets.take 1)) := by
  have heq := filterAndPrioritizeSnippets_eq snippets query h
  constructor
  · rw [heq]
    by_cases h1 : primarySelection snippets query ≠ []
    · rw [if_pos h1]; exact h1
    · rw [if_neg h1]
      by_cases h2 : fallbackNumericalSnippets snippets ≠ []
      · rw [if_pos h2]; exact take_ne_nil_of_ne_nil _ 2 h2
      · rw [if_neg h2]
        by_cases h3 : fallbackFinancialContext snippets ≠ []
        · rw [if_pos h3]; exact take_ne_nil_of_ne_nil _ 1 h3
        · rw [if_neg h3]
          by_cases h4 : fallbackNonNegative snippets ≠ []
          · rw [if_pos h4]; exact take_ne_nil_of_ne_nil _ 0 h4
          · rw [if_neg h4]; exact take_ne_nil_of_ne_nil _ 0 h
  · intro hp
    rw [heq, if_neg (not_not_intro hp)]

/-- C4 witness: a single boilerplate fragment still yields a non-empty
result (through the last-resort fallback). -/
theorem snippet_filter_never_empty_witness :
    filterAndPrioritizeSnippets ["記載を省略"] "" ≠ [] :=
  (snippet_filter_never_empty ["記載を省略"] "" (by decide)).1

/-- C5 counterexample: the fragment `記載を省略` contains a boilerplate
negative phrase, has no numeric financial data and no rescue financial term,
yet the snippet filter still returns it (through the absolute last-resort
fallback) — so such fragments are not always excluded from the selected
output. -/
theorem boilerplate_fragment_can_surface :
    (negativeTermsScore.any (fun t => jsIncludes (jsToLower "記載を省略") t)) = true ∧
    hasNumericalData "記載を省略" = false ∧
    hasRescueTerms "記載を省略" = false ∧
    "記載を省略" ∈ filterAndPrioritizeSnippets ["記載を省略"] "" := by decide

/-- C5 amended: a fragment containing a boilerplate negative phrase, with no
numeric financial data, no rescue financial term and a non-positive additive
score, is excluded from the primary top-K selection; consequently it is
absent from the filter output whenever the primary selection is non-empty
(only the emergency fallback tiers can still surface it). -/
theorem boilerplate_excluded_from_primary (snippets : List String) (query frag : String)
    (hneg : (negativeTermsScore.any (fun t => jsIncludes (jsToLower frag) t)) = true)
    (hnum : hasNumericalData frag = false)
    (hfin : hasRescueTerms frag = false)
    (hscore : snippetScore query frag ≤ 0) :
    frag ∉ primarySelection snippets query ∧
    (primarySelection snippets query ≠ [] →
      frag ∉ filterAndPrioritizeSnippets snippets query) := by
  have hmain : frag ∉ primarySelection snippets query := by
    intro hmem
    unfold primarySelection at hmem
    obtain ⟨item, hitem, hsn⟩ := List.mem_map.mp hmem
    have h1 : item ∈ sortByScoreDesc ((scoredSnippets snippets query).filter primaryKeep) :=
      List.take_subset _ _ hitem
    have h2 : item ∈ (scoredSnippets snippets query).filter primaryKeep :=
      (List.perm_insertionSort _ _).mem_iff.mp h1
    have h3 := (List.mem_filter.mp h2).1
    have h4 := (List.mem_filter.mp h2).2
    have h5 : item.score = snippetScore query item.snippet :=
      mem_scoredSnippetsAux query 0 snippets item h3
    rw [primaryKeep, hsn] at h4
    simp only [Bool.or_eq_true] at h4
    rcases h4 with (h7 | h7) | h7
    · have h8 : 0 < item.score := of_decide_eq_true h7
      rw [h5, hsn] at h8
      omega
    · rw [hnum] at h7; exact absurd h7 (by decide)
    · rw [hfin] at h7; exact absurd h7 (by decide)
  refine ⟨hmain, fun hne hmem2 => ?_⟩
  have hsnip : snippets ≠ [] := by
    intro h0
    rw [h0] at hne
    exact hne rfl
  rw [filterAndPrioritizeSnippets_eq snippets query hsnip, if_pos hne] at hmem2
  exact hmain hmem2

/-- C5 amended witness: the boilerplate fragment of the counterexample has
non-positive score and is indeed absent from the primary selection. -/
theorem boilerplate_excluded_from_primary_witness :
    snippetScore "" "記載を省略" ≤ 0 ∧ "記載を省略" ∉ primarySelection ["記載を省略"] "" :=
  ⟨by decide,
   (boilerplate_excluded_from_primary ["記載を省略"] "" "記載を省略"
     (by decide) (by decide) (by decide) (by decide)).1⟩

/-- Any snippet emitted by the structured-value probing is a sanitized text
longer than 10 characters. -/
theorem cleanedSnippetOfValue_length (v : JVal) (s : String)
    (h : cleanedSnippetOfValue v = some s) : 10 < s.length := by
  unfold cleanedSnippetOfValue at h
  rcases hp : snippetValuePick v with _ | w
  · rw [hp] at h; simp at h
  · rw [hp] at h
    rcases w with s0 | fs | es | _
    · dsimp only at h
      split at h
      · split at h
        · rename_i hlen
          injection h with h
          rw [← h]
          exact hlen
        · simp at h
      · simp at h
    · simp at h
    · simp at h
    · simp at h

/-- Any snippet emitted by the `snippet`-property branch is a sanitized text
longer than 10 characters. -/
theorem snippetPropBranch_length (fs : List (String × JVal)) (s : String)
    (h : s ∈ snippetPropBranch fs) : 10 < s.length := by
  unfold snippetPropBranch at h
  rcases hs : jLookup fs "snippet" with _ | w
  · rw [hs] at h; simp at h
  · rw [hs] at h
    rcases w with s0 | fs3 | es3 | _
    · dsimp only at h
      split at h
      · simp at h
      · split at h
        · rename_i hlen
          rcases List.mem_singleton.mp h with rfl
          exact hlen
        · simp at h
    · simp at h
    · simp at h
    · simp at h

/-- Any snippet emitted by the `listValue.values` branch (or its fall-through)
is longer than 10 characters. -/
theorem listValueBranch_length (fs : List (String × JVal)) (s : String)
    (h : s ∈ listValueBranch fs) : 10 < s.length := by
  unfold listValueBranch at h
  rcases hlv : jPath (JVal.obj fs) ["listValue", "values"] with _ | w2
  · rw [hlv] at h
    exact snippetPropBranch_length fs s h
  · rw [hlv] at h
    rcases w2 with s2 | fs2 | es2 | _
    · exact snippetPropBranch_length fs s h
    · exact snippetPropBranch_length fs s h
    · obtain ⟨v, hvmem, hcl⟩ := List.mem_filterMap.mp h
      exact cleanedSnippetOfValue_length v s hcl
    · exact snippetPropBranch_length fs s h

/-- C6 counterexample: the plain-array branch of the snippet extractor pushes
the raw `snippet` property with neither sanitization nor a length check, so a
text whose sanitized form is 10 characters or shorter is still emitted. -/
theorem raw_array_snippet_skips_sanitization :
    extractSnippetsFromPDF (JVal.arr [JVal.obj [("snippet", JVal.str "hi")]]) = ["hi"] ∧
    (sanitizeText "hi").length ≤ 10 := by decide

/-- C6 amended: the sanitizer round-trip holds
(`<b>営業利益</b>&nbsp;100&nbsp;百万円` becomes `営業利益 100 百万円`), and
every text emitted through the structured (object-shaped) snippet payload
branches is sanitized and longer than 10 characters; only the legacy
plain-array branch can emit raw strings whose sanitized form is 10
characters or shorter. -/
theorem sanitize_roundtrip_structured_branch (fields : List (String × JVal)) (s : String)
    (h : s ∈ extractSnippetsFromPDF (JVal.obj fields)) :
    sanitizeText "<b>営業利益</b>&nbsp;100&nbsp;百万円" = "営業利益 100 百万円" ∧
    10 < s.length := by
  refine ⟨by decide, ?_⟩
  unfold extractSnippetsFromPDF at h
  dsimp only [jTruthy, Bool.not_true, Bool.false_eq_true, if_false] at h
  rcases hv : jLookup fields "values" with _ | w
  · rw [hv] at h
    exact listValueBranch_length fields s h
  · rw [hv] at h
    rcases w with s1 | fs1 | es1 | _
    · exact listValueBranch_length fields s h
    · exact listValueBranch_length fields s h
    · obtain ⟨v, hvmem, hcl⟩ := List.mem_filterMap.mp h
      exact cleanedSnippetOfValue_length v s hcl
    · exact listValueBranch_length fields s h

/-- C6 amended witness: a concrete structured payload emits a sanitized
12-character snippet, and the theorem certifies its length. -/
theorem sanitize_roundtrip_structured_branch_witness :
    "abcdefghijkl" ∈ extractSnippetsFromPDF
      (JVal.obj [("values", JVal.arr [JVal.obj [("stringValue", JVal.str "abcdefghijkl")]])]) ∧
    10 < ("abcdefghijkl" : String).length :=
  ⟨by decide,
   (sanitize_roundtrip_structured_branch
     [("values", JVal.arr [JVal.obj [("stringValue", JVal.str "abcdefghijkl")]])]
     "abcdefghijkl" (by decide)).2⟩

/-- C8: with zero retrieval hits the orchestrator returns the fixed
no-information-found message with confidence 0, no sources and a zero result
count, for every generation-oracle outcome — the response does not depend on
the generation call at all. -/
theorem zero_results_fixed_response (query : String) (totalSize : Nat)
    (vertex : Except String (List VertexPrediction)) :
    generateRAGResponse query { results := [], totalSize := totalSize } vertex =
      { answer := noResultsAnswer, sources := [], confidence := 0,
        searchResultsCount := 0 } := rfl

/-- C1: when some hit qualifies for the direct-answer bypass, the
orchestrator returns, for the first qualifying hit in retrieval order, the
stored answer verbatim with exactly one source, result count 1, and
confidence 1 for an exact normalized match and the token-overlap similarity
otherwise. -/
theorem direct_match_first_qualifying_hit (query : String) (sr : SearchResponse)
    (vertex : Except String (List VertexPrediction)) (r : SearchResult)
    (h : sr.results.find? (qualifies query) = some r) :
    generateRAGResponse query sr vertex = directResponse query r ∧
    (directResponse query r).answer = (sLookup r.document.structData "answer").getD "" ∧
    (directResponse query r).sources.length = 1 ∧
    (directResponse query r).searchResultsCount = 1 ∧
    (directResponse query r).confidence =
      (if normQuestion r = normQuery query then 1
       else questionSimilarity (normQuestion r) (normQuery query)) := by
  have hne : ¬(sr.results.length = 0) := by
    intro h0
    rw [List.length_eq_zero.mp h0] at h
    simp at h
  refine ⟨?_, rfl, rfl, rfl, rfl⟩
  unfold generateRAGResponse
  rw [if_neg hne, findDirectMatch_of_find? query sr.results r h]

/-- C1 witness: a stored question equal (after lowercasing) to the query
"test" is returned directly. -/
theorem direct_match_first_qualifying_hit_witness :
    ([hitExact].find? (qualifies "test") = some hitExact) ∧
    generateRAGResponse "test" { results := [hitExact], totalSize := 1 } (.error "e") =
      directResponse "test" hitExact :=
  ⟨rfl,
   (direct_match_first_qualifying_hit "test" { results := [hitExact], totalSize := 1 }
     (.error "e") hitExact rfl).1⟩

/-- The orchestrator past the direct-match check and the context guard
reduces to the generation step with its failure fallbacks. -/
theorem generateRAGResponse_post_context (query : String) (sr : SearchResponse)
    (vertex : Except String (List VertexPrediction))
    (hne : ¬(sr.results.length = 0))
    (hm : findDirectMatch query sr.results = none)
    (hc : ¬((jsTrim (buildContextFromResults sr.results query)).length = 0)) :
    generateRAGResponse query sr vertex =
      (match generateTextWithGemini vertex with
       | .ok gen =>
         { answer := gen.text, sources := sr.results.map buildSource,
           confidence := gen.confidence, searchResultsCount := sr.results.length }
       | .error _ =>
         match sr.results.find? goodFallbackAnswer with
         | some r => fallbackResponse r sr.results.length
         | none =>
           { answer := systemTroubleAnswer, sources := [], confidence := 0,
             searchResultsCount := 0 }) := by
  unfold generateRAGResponse
  rw [if_neg hne, hm]
  dsimp only
  rw [if_neg hc]

/-- C2: when the generation call throws (and the pipeline reached it), the
orchestrator returns the answer of the first hit whose stored answer is
longer than 10 characters, prefixed with the fixed lead-in, with confidence
exactly 0.8 and one source; with no such hit it returns the fixed apologetic
message with confidence 0 and no sources — in either case the exception is
absorbed, never rethrown. -/
theorem generation_failure_fallback (query : String) (sr : SearchResponse)
    (vertex : Except String (List VertexPrediction)) (e : String)
    (hm : findDirectMatch query sr.results = none)
    (hc : ¬((jsTrim (buildContextFromResults sr.results query)).length = 0))
    (hg : generateTextWithGemini vertex = .error e) :
    (∀ r, sr.results.find? goodFallbackAnswer = some r →
      generateRAGResponse query sr vertex = fallbackResponse r sr.results.length ∧
      (fallbackResponse r sr.results.length).answer =
        fallbackLeadIn ++ (sLookup r.document.structData "answer").getD "" ∧
      (fallbackResponse r sr.results.length).confidence = 8/10 ∧
      (fallbackResponse r sr.results.length).sources.length = 1) ∧
    (sr.results.find? goodFallbackAnswer = none →
      generateRAGResponse query sr vertex =
        { answer := systemTroubleAnswer, sources := [], confidence := 0,
          searchResultsCount := 0 }) := by
  have hne : ¬(sr.results.length = 0) := by
    intro h0
    rw [List.length_eq_zero.mp h0] at hc
    exact hc rfl
  have hshape := generateRAGResponse_post_context query sr vertex hne hm hc
  rw [hg] at hshape
  dsimp only at hshape
  constructor
  · intro r hf
    have h2 := hshape
    rw [hf] at h2
    exact ⟨h2, rfl, rfl, rfl⟩
  · intro hf
    have h2 := hshape
    rw [hf] at h2
    exact h2

/-- C2 witness: a single hit with a 12-character answer and no question is
surfaced with the lead-in and confidence 0.8 when the generation call
rejects. -/
theorem generation_failure_fallback_witness :
    generateRAGResponse "q" { results := [hitAnswerOnly], totalSize := 1 } (.error "boom") =
      fallbackResponse hitAnswerOnly 1 :=
  ((generation_failure_fallback "q" { results := [hitAnswerOnly], totalSize := 1 }
      (.error "boom") "Failed to generate text: boom" rfl (by decide) rfl).1
    hitAnswerOnly rfl).1

/-- C9: on every non-throwing path the returned confidence lies in [0, 1]
(the possible values are 0, the similarity, 1, 0.8, and the generation
confidence 0.7 or 0.9). -/
theorem rag_confidence_unit_interval (query : String) (sr : SearchResponse)
    (vertex : Except String (List VertexPrediction)) :
    0 ≤ (generateRAGResponse query sr vertex).confidence ∧
      (generateRAGResponse query sr vertex).confidence ≤ 1 := by
  unfold generateRAGResponse
  split
  · constructor <;> norm_num
  · rcases hfd : findDirectMatch query sr.results with _ | resp
    · dsimp only
      split
      · constructor <;> norm_num
      · rcases hg : generateTextWithGemini vertex with e | g
        · dsimp only
          rcases hf : sr.results.find? goodFallbackAnswer with _ | r
          · dsimp only
            constructor <;> norm_num
          · dsimp only
            unfold fallbackResponse
            constructor <;> norm_num
        · dsimp only
          rcases generateTextWithGemini_confidence vertex g hg with hcv | hcv <;>
            rw [hcv] <;> constructor <;> norm_num
    · dsimp only
      obtain ⟨r, rfl⟩ := findDirectMatch_some_shape query sr.results resp hfd
      exact ⟨matchConfidence_nonneg query r, matchConfidence_le_one query r⟩

/-- C10: with at least one retrieval hit the assembled context is non-empty
after trimming (every hit is classified Q&A or PDF and emits one labeled
block), so the orchestrator's empty-context early return is unreachable. -/
theorem context_nonempty_for_hits (results : List SearchResult) (query : String)
    (h : results ≠ []) :
    (jsTrim (buildContextFromResults results query)).length ≠ 0 := by
  have hbr : '[' ∈ (buildContextFromResults results query).data := by
    rcases results with _ | ⟨r, rest⟩
    · exact absurd rfl h
    · unfold buildContextFromResults
      by_cases hq : hasQA r
      · have hf : (r :: rest).filter hasQA = r :: rest.filter hasQA :=
          List.filter_cons_of_pos hq
        rw [hf]
        apply mem_data_joinSep _ _ _ (qaBlock r 0) _ (bracket_mem_qaBlock r 0)
        apply List.mem_append_left
        apply List.mem_append_right
        exact List.mem_cons_self _ _
      · have hq2 : (fun r2 => !hasQA r2) r = true := by
          simp [hq]
        have hf : (r :: rest).filter (fun r2 => !hasQA r2) =
            r :: rest.filter (fun r2 => !hasQA r2) :=
          List.filter_cons_of_pos hq2
        rw [hf]
        apply mem_data_joinSep _ _ _ (pdfBlock r 0) _ (bracket_mem_pdfBlock r 0)
        apply List.mem_append_right
        exact List.mem_cons_self _ _
  exact jsTrim_length_ne_zero _ '[' hbr (by decide)

/-- C10 witness: one answer-only hit yields a non-empty trimmed context. -/
theorem context_nonempty_for_hits_witness :
    (jsTrim (buildContextFromResults [hitAnswerOnly] "q")).length ≠ 0 :=
  context_nonempty_for_hits [hitAnswerOnly] "q" (List.cons_ne_nil _ _)

/-- C7: every PDF-classified hit contributes exactly one context block; the
block carries the resolved content truncated to its first 800 characters
plus an ellipsis marker when longer than 800, the whole content when not,
and an explicit unavailable marker when no content was resolved. -/
theorem pdf_blocks_one_per_hit (results : List SearchResult) (query : String) :
    (pdfPartsAux 0 (results.filter (fun r => !hasQA r))).length =
      (results.filter (fun r => !hasQA r)).length ∧
    (∀ (r : SearchResult) (i : Nat), 800 < (resolvePdfContent r).length →
      pdfBlock r i = pdfHeader r i ++
        ("\n内容: " ++ (String.mk ((resolvePdfContent r).data.take 800) ++ "..."))) ∧
    (∀ (r : SearchResult) (i : Nat), resolvePdfContent r ≠ "" →
      (resolvePdfContent r).length ≤ 800 →
      pdfBlock r i = pdfHeader r i ++ ("\n内容: " ++ resolvePdfContent r)) ∧
    (∀ (r : SearchResult) (i : Nat), resolvePdfContent r = "" →
      pdfBlock r i = pdfHeader r i ++ "\n内容: [内容が取得できませんでした]") := by
  refine ⟨pdfPartsAux_length 0 _, ?_, ?_, ?_⟩
  · intro r i hlen
    have hne : ¬(resolvePdfContent r = "") := by
      intro h0
      rw [h0] at hlen
      simp at hlen
    unfold pdfBlock pdfContentLine
    rw [if_neg hne, if_pos hlen]
  · intro r i hne hlen
    unfold pdfBlock pdfContentLine
    rw [if_neg hne, if_neg (not_lt.mpr hlen)]
  · intro r i hz
    unfold pdfBlock pdfContentLine
    rw [if_pos hz]

/-- C7 witness: a hit with no resolvable content still emits a block with
the explicit unavailable marker. -/
theorem pdf_blocks_one_per_hit_witness :
    resolvePdfContent hitBare = "" ∧
    pdfBlock hitBare 0 = pdfHeader hitBare 0 ++ "\n内容: [内容が取得できませんでした]" :=
  ⟨rfl, (pdf_blocks_one_per_hit [] "q").2.2.2 hitBare 0 rfl⟩
